import Mathlib

/-!
Shallow embedding of the promise-poc repository (src/index.js and the
unnamed duplicate file src/unnamed/part_000).

Modelling conventions:
* A settled promise is an `Outcome α`: either `ok v` or `err msg` (every
  rejection in the source carries an `Error` whose observable part is its
  message string).
* A promise together with the wall-clock delay (in ms) after which it
  settles is a `Timed (Outcome α)`.  `Promise.race` is decided by delay;
  on equal delays the first-registered promise wins, matching the timer
  registration order of the source.
* `Math.random()` draws are explicit rational parameters in `[0, 1)`.
* The source's `fakeIO` is rendered here as `fakeIo` (same function, the
  capitalisation is adjusted).  Its `timestamp` field
  (`new Date().toISOString()`) is modelled as the completion time in ms
  relative to the call, i.e. `ms`.
-/

/-- A value that becomes available after `delay` milliseconds. -/
structure Timed (α : Type) where
  delay : Nat
  val : α
deriving Repr, DecidableEq

/-- `const sleep = (ms) => new Promise((resolve) => setTimeout(resolve, ms))`:
a promise resolving with `undefined` after `ms` milliseconds. -/
def sleep (ms : Nat) : Timed Unit :=
  ⟨ms, ()⟩

/-- The settled state of a promise: fulfilled with a value or rejected with
an error message. -/
inductive Outcome (α : Type) where
  | ok : α → Outcome α
  | err : String → Outcome α
deriving Repr, DecidableEq

/-- `true` exactly on `Outcome.ok`. -/
def Outcome.isOk : Outcome α → Bool
  | .ok _ => true
  | .err _ => false

/-- `true` exactly on `Outcome.err`. -/
def Outcome.isErr : Outcome α → Bool
  | .ok _ => false
  | .err _ => true

/-- The object `fakeIO` resolves with: `{ name, durationMs, timestamp }`.
The ISO-8601 `timestamp` string is abstracted to the completion time in
milliseconds since the call. -/
structure Result where
  name : String
  durationMs : Nat
  timestamp : Nat
deriving Repr, DecidableEq

/-- `function fakeIO(name, ms, failRate = 0.0)` from src/index.js lines 5-20:
waits `ms`, draws `Math.random()` (the explicit `draw` parameter here), and
rejects with `[<name>] failed (simulated)` when `draw < failRate`, else
resolves with `{name, durationMs: ms, timestamp}`. -/
def fakeIo (name : String) (ms : Nat) (failRate : ℚ) (draw : ℚ) :
    Timed (Outcome Result) :=
  ⟨(sleep ms).delay,
    if draw < failRate then
      .err ("[" ++ name ++ "] failed (simulated)")
    else
      .ok ⟨name, ms, ms⟩⟩

/-- Observable trace of the chain scenario: the value its promise settles
with, and whether the `.finally` callback ran. -/
structure ChainTrace where
  value : Outcome String
  finallyRan : Bool
deriving Repr, DecidableEq

/-- The `.then/.then/.catch/.finally` pipeline of `demoPromiseChain`
(src/index.js lines 23-43), parameterised by the settled outcomes of the
two `fakeIO` steps.  The second step's outcome is irrelevant when the
first fails, exactly as the source never starts step 2 in that case. -/
def chainSteps (s1 s2 : Outcome Result) : ChainTrace :=
  let afterThens : Outcome String :=
    match s1 with
    | .err e => .err e
    | .ok _ =>
      match s2 with
      | .err e => .err e
      | .ok _ => .ok "final result from promise chain"
  let afterCatch : Outcome String :=
    match afterThens with
    | .err _ => .ok "chain recovered with fallback"
    | .ok v => .ok v
  ⟨afterCatch, true⟩

/-- `demoPromiseChain` (src/index.js lines 23-43): chains
`fakeIO("step-1", 300)` and `fakeIO("step-2", 250)` with a catch fallback
and a finally step.  `d1`, `d2` are the two random draws. -/
def demoPromiseChain (d1 d2 : ℚ) : ChainTrace :=
  chainSteps (fakeIo "step-1" 300 0 d1).val (fakeIo "step-2" 250 0 d2).val

/-- `demoAsyncAwait` (src/index.js lines 46-61): two sequential awaited
`fakeIO` calls inside try/catch; any failure yields the fallback string. -/
def demoAsyncAwait (d1 d2 : ℚ) : Outcome String :=
  match (fakeIo "await-1" 200 0 d1).val with
  | .err _ => .ok "async/await fallback result"
  | .ok _ =>
    match (fakeIo "await-2" 200 0 d2).val with
    | .err _ => .ok "async/await fallback result"
    | .ok _ => .ok "final result from async/await"

/-- `Promise.all` over settled outcomes: fulfilled with the list of values
in input order when all fulfil, rejected otherwise.  The rejection kept is
the first in list order; in the scenarios of this repository every operand
has failure probability 0, so this choice is never observable. -/
def promiseAll : List (Outcome α) → Outcome (List α)
  | [] => .ok []
  | o :: rest =>
    match o with
    | .err e => .err e
    | .ok v =>
      match promiseAll rest with
      | .err e => .err e
      | .ok vs => .ok (v :: vs)

/-- `demoParallelAll` (src/index.js lines 64-78): `Promise.all` over
`fakeIO("A",400)`, `fakeIO("B",300)`, `fakeIO("C",200)`; the observable
value is the list of result names it logs. -/
def demoParallelAll (d1 d2 d3 : ℚ) : Outcome (List String) :=
  match promiseAll
      [(fakeIo "A" 400 0 d1).val, (fakeIo "B" 300 0 d2).val,
       (fakeIo "C" 200 0 d3).val] with
  | .err e => .err e
  | .ok rs => .ok (rs.map Result.name)

/-- A settled outcome as reported by `Promise.allSettled`:
`{status: "fulfilled", value}` or `{status: "rejected", reason}`. -/
inductive Settled (α : Type) where
  | fulfilled : α → Settled α
  | rejected : String → Settled α
deriving Repr, DecidableEq

/-- `true` exactly on `Settled.fulfilled`. -/
def Settled.isFulfilled : Settled α → Bool
  | .fulfilled _ => true
  | .rejected _ => false

/-- `true` exactly on `Settled.rejected`. -/
def Settled.isRejected : Settled α → Bool
  | .fulfilled _ => false
  | .rejected _ => true

/-- How `Promise.allSettled` wraps one settled promise. -/
def settleOf : Outcome α → Settled α
  | .ok v => .fulfilled v
  | .err e => .rejected e

/-- `Promise.allSettled`: one `Settled` entry per input promise, in input
order, never rejecting. -/
def allSettled (l : List (Outcome α)) : List (Settled α) :=
  l.map settleOf

/-- `demoAllSettled` (src/index.js lines 81-99): `Promise.allSettled` over
`fakeIO("S1",200,0.0)`, `fakeIO("S2",250,0.7)`, `fakeIO("S3",150,0.2)`. -/
def demoAllSettled (d1 d2 d3 : ℚ) : List (Settled Result) :=
  allSettled
    [(fakeIo "S1" 200 0 d1).val, (fakeIo "S2" 250 (7/10) d2).val,
     (fakeIo "S3" 150 (2/10) d3).val]

/-- The settle-all scenario as run by `main`: it iterates over the settled
results, logging each, and its own promise always fulfils. -/
def demoAllSettledRun (d1 d2 d3 : ℚ) : Outcome Unit :=
  match demoAllSettled d1 d2 d3 with
  | _ => .ok ()

/-- `Promise.race` of two timed promises: the earlier settler wins; on a
tie the first-listed wins, its timer having been registered first. -/
def race2 (a b : Timed (Outcome α)) : Timed (Outcome α) :=
  if b.delay < a.delay then b else a

/-- `demoRace` (src/index.js lines 102-108): races `fakeIO("slow", 400)`
against `fakeIO("fast", 120)` and logs the winner's name. -/
def demoRace (ds df : ℚ) : Outcome String :=
  match (race2 (fakeIo "slow" 400 0 ds) (fakeIo "fast" 120 0 df)).val with
  | .err e => .err e
  | .ok w => .ok w.name

/-- `withTimeout` (src/index.js lines 111-118): races `promise` against a
timer that rejects with `timeout after <ms>ms` at `ms` milliseconds.  The
operation's timer is registered before the timeout timer, so it wins a
tie. -/
def withTimeout (p : Timed (Outcome α)) (ms : Nat) : Timed (Outcome α) :=
  if p.delay ≤ ms then p
  else ⟨ms, .err ("timeout after " ++ toString ms ++ "ms")⟩

/-- `demoTimeout` (src/index.js lines 120-129): awaits
`withTimeout(fakeIO("operation", 500), 250)` inside try/catch, so its own
promise always fulfils. -/
def demoTimeout (d : ℚ) : Outcome Unit :=
  match (withTimeout (fakeIo "operation" 500 0 d) 250).val with
  | .ok _ => .ok ()
  | .err _ => .ok ()

/-- Observable trace of one `retry` invocation: how it settles (`Except`
error payload `none` models throwing the still-`undefined` `lastError`),
how many times the factory was invoked, and the individual backoff sleeps
in order. -/
structure RetryResult (α : Type) where
  outcome : Except (Option String) α
  calls : Nat
  waits : List Nat
deriving Repr

/-- Total backoff wait incurred by a retry run. -/
def RetryResult.totalWait (r : RetryResult α) : Nat :=
  r.waits.sum

/-- The loop of `retry` (src/index.js lines 132-149) from attempt number
`a` with `r` loop iterations remaining and current `lastError`: on success
return at once; on failure record the error, sleep `delayMs * a`, continue;
when the budget is exhausted throw `lastError`. -/
def retryFrom (fn : Nat → Outcome α) (delayMs : Nat) :
    Option String → Nat → Nat → RetryResult α
  | last, _, 0 => ⟨.error last, 0, []⟩
  | _, a, r + 1 =>
    match fn a with
    | .ok v => ⟨.ok v, 1, []⟩
    | .err e =>
      let rest := retryFrom fn delayMs (some e) (a + 1) r
      ⟨rest.outcome, rest.calls + 1, delayMs * a :: rest.waits⟩

/-- `async function retry(fn, { retries = 3, delayMs = 200 })`
(src/index.js lines 132-149): attempts are numbered 1..retries; note the
loop sleeps after every failed attempt, the last one included. -/
def retry (fn : Nat → Outcome α) (retries delayMs : Nat) : RetryResult α :=
  retryFrom fn delayMs none 1 retries

/-- `demoRetry` (src/index.js lines 151-163): drives
`() => fakeIO("unstable", 150, 0.65)` through `retry` with
`{retries: 4, delayMs: 150}` inside try/catch, so its own promise always
fulfils.  `draws a` is the random draw of attempt `a`. -/
def demoRetry (draws : Nat → ℚ) : Outcome Unit :=
  match (retry (fun a => (fakeIo "unstable" 150 (65/100) (draws a)).val)
      4 150).outcome with
  | .ok _ => .ok ()
  | .error _ => .ok ()

/-- `demoPipeline` (src/index.js lines 166-190): sequential fetch, then
`Promise.all` of the two process parts (both delays differ, and with the
part-1 promise first in both list order and completion order), then
sequential save. -/
def demoPipeline (d1 d2 d3 d4 : ℚ) :
    Outcome (Result × (Result × Result) × Result) :=
  match (fakeIo "fetch-data" 200 0 d1).val with
  | .err e => .err e
  | .ok fetched =>
    match (fakeIo "process-part-1" 250 0 d2).val,
        (fakeIo "process-part-2" 300 0 d3).val with
    | .err e, _ => .err e
    | _, .err e => .err e
    | .ok p1, .ok p2 =>
      match (fakeIo "save" 150 0 d4).val with
      | .err e => .err e
      | .ok saved => .ok (fetched, (p1, p2), saved)

/-- Forgets a fulfilment value, keeping only how the promise settled. -/
def voidOutcome : Outcome α → Outcome Unit
  | .ok _ => .ok ()
  | .err e => .err e

/-- One scenario as awaited by `main`: its printed name and how its
promise settles. -/
structure ScenarioRun where
  name : String
  outcome : Outcome Unit
deriving Repr, DecidableEq

/-- Sequential awaiting as done by `main`: each scenario runs only if all
previous ones fulfilled; a rejection aborts the run (the async IIFE's
promise rejects and nothing after the faulty `await` executes).  Returns
the names of the scenarios that ran, in order, and the final outcome. -/
def runAll : List ScenarioRun → List String × Outcome Unit
  | [] => ([], .ok ())
  | s :: rest =>
    match s.outcome with
    | .err e => ([s.name], .err e)
    | .ok _ =>
      let r := runAll rest
      (s.name :: r.1, r.2)

/-- The fixed scenario list of `main` (src/index.js lines 193-216), with
the stream `rand` supplying every `Math.random()` draw (indices are
allocated per scenario; attempt `a` of the retry scenario reads
`rand (12 + a)`). -/
def mainScenarios (rand : Nat → ℚ) : List ScenarioRun :=
  [⟨"chain", voidOutcome (demoPromiseChain (rand 0) (rand 1)).value⟩,
   ⟨"async-await", voidOutcome (demoAsyncAwait (rand 2) (rand 3))⟩,
   ⟨"parallel-all", voidOutcome (demoParallelAll (rand 4) (rand 5) (rand 6))⟩,
   ⟨"settle-all", demoAllSettledRun (rand 7) (rand 8) (rand 9)⟩,
   ⟨"race", voidOutcome (demoRace (rand 10) (rand 11))⟩,
   ⟨"timeout", demoTimeout (rand 12)⟩,
   ⟨"retry", demoRetry (fun a => rand (12 + a))⟩,
   ⟨"pipeline",
     voidOutcome (demoPipeline (rand 17) (rand 18) (rand 19) (rand 20))⟩]

/-- The async IIFE `main` (src/index.js lines 193-216). -/
def mainRun (rand : Nat → ℚ) : List String × Outcome Unit :=
  runAll (mainScenarios rand)

/-!
The duplicate file src/unnamed/part_000: its function definitions are
re-translated here independently; they are textually identical to those of
src/index.js (part_000 simply lacks retry, demoRetry and demoPipeline, and
its main runs only the first six scenarios).
-/

namespace Dup

/-- `sleep` as defined in src/unnamed/part_000 line 1. -/
def sleep (ms : Nat) : Timed Unit :=
  ⟨ms, ()⟩

/-- `fakeIO` as defined in src/unnamed/part_000 lines 3-18. -/
def fakeIo (name : String) (ms : Nat) (failRate : ℚ) (draw : ℚ) :
    Timed (Outcome Result) :=
  ⟨(sleep ms).delay,
    if draw < failRate then
      .err ("[" ++ name ++ "] failed (simulated)")
    else
      .ok ⟨name, ms, ms⟩⟩

/-- The then/catch/finally pipeline of part_000's `demoPromiseChain`. -/
def chainSteps (s1 s2 : Outcome Result) : ChainTrace :=
  let afterThens : Outcome String :=
    match s1 with
    | .err e => .err e
    | .ok _ =>
      match s2 with
      | .err e => .err e
      | .ok _ => .ok "final result from promise chain"
  let afterCatch : Outcome String :=
    match afterThens with
    | .err _ => .ok "chain recovered with fallback"
    | .ok v => .ok v
  ⟨afterCatch, true⟩

/-- `demoPromiseChain` as defined in src/unnamed/part_000 lines 21-41. -/
def demoPromiseChain (d1 d2 : ℚ) : ChainTrace :=
  chainSteps (fakeIo "step-1" 300 0 d1).val (fakeIo "step-2" 250 0 d2).val

/-- `demoAsyncAwait` as defined in src/unnamed/part_000 lines 44-59. -/
def demoAsyncAwait (d1 d2 : ℚ) : Outcome String :=
  match (fakeIo "await-1" 200 0 d1).val with
  | .err _ => .ok "async/await fallback result"
  | .ok _ =>
    match (fakeIo "await-2" 200 0 d2).val with
    | .err _ => .ok "async/await fallback result"
    | .ok _ => .ok "final result from async/await"

/-- `demoParallelAll` as defined in src/unnamed/part_000 lines 62-76. -/
def demoParallelAll (d1 d2 d3 : ℚ) : Outcome (List String) :=
  match promiseAll
      [(fakeIo "A" 400 0 d1).val, (fakeIo "B" 300 0 d2).val,
       (fakeIo "C" 200 0 d3).val] with
  | .err e => .err e
  | .ok rs => .ok (rs.map Result.name)

/-- `demoAllSettled` as defined in src/unnamed/part_000 lines 79-97. -/
def demoAllSettled (d1 d2 d3 : ℚ) : List (Settled Result) :=
  allSettled
    [(fakeIo "S1" 200 0 d1).val, (fakeIo "S2" 250 (7/10) d2).val,
     (fakeIo "S3" 150 (2/10) d3).val]

/-- `demoRace` as defined in src/unnamed/part_000 lines 100-106. -/
def demoRace (ds df : ℚ) : Outcome String :=
  match (race2 (fakeIo "slow" 400 0 ds) (fakeIo "fast" 120 0 df)).val with
  | .err e => .err e
  | .ok w => .ok w.name

/-- `withTimeout` as defined in src/unnamed/part_000 lines 109-116. -/
def withTimeout (p : Timed (Outcome α)) (ms : Nat) : Timed (Outcome α) :=
  if p.delay ≤ ms then p
  else ⟨ms, .err ("timeout after " ++ toString ms ++ "ms")⟩

/-- `demoTimeout` as defined in src/unnamed/part_000 lines 118-127. -/
def demoTimeout (d : ℚ) : Outcome Unit :=
  match (withTimeout (fakeIo "operation" 500 0 d) 250).val with
  | .ok _ => .ok ()
  | .err _ => .ok ()

end Dup

/-!
Helper lemmas.
-/

/-- A zero-failure-rate `fakeIo` with a nonnegative draw fulfils. -/
theorem fakeIo_zero_rate (n : String) (m : Nat) (d : ℚ) (h : 0 ≤ d) :
    (fakeIo n m 0 d).val = Outcome.ok ⟨n, m, m⟩ := by
  simp [fakeIo, not_lt.mpr h]

/-- Prepending the backoff of attempt `a` to the backoffs of attempts
`a+1, ..., a+j` gives the backoffs of attempts `a, ..., a+j`. -/
theorem waitsCons (d a j : Nat) :
    d * a :: ((List.range j).map fun i => d * (a + 1 + i))
      = (List.range (j + 1)).map fun i => d * (a + i) := by
  have hfun : (fun i => d * (a + 1 + i))
      = ((fun i => d * (a + i)) ∘ Nat.succ) := by
    funext i
    simp only [Function.comp, Nat.succ_eq_add_one]
    ring
  rw [List.range_succ_eq_map, List.map_cons, List.map_map, ← hfun]
  simp

/-- Multiplying each list entry by `d` multiplies the sum by `d`. -/
theorem list_sum_map_mul_left (d : Nat) (l : List Nat) :
    (l.map fun x => d * x).sum = d * l.sum := by
  induction l with
  | nil => simp
  | cons x xs ih => simp [ih, Nat.mul_add]

/-- The backoff sum `d*1 + d*2 + ... + d*n` equals `d * (0+1+...+n)`. -/
theorem sum_shifted_range (d n : Nat) :
    ((List.range n).map fun i => d * (1 + i)).sum
      = d * (List.range (n + 1)).sum := by
  induction n with
  | zero => simp [List.range_succ]
  | succ n ih =>
    rw [List.range_succ, List.map_append, List.sum_append, ih]
    conv_rhs => rw [List.range_succ, List.sum_append]
    rw [Nat.mul_add]
    simp [Nat.add_comm]

/-- Running the retry loop from attempt `a` when attempts `a..a+j-1` fail
and attempt `a+j` succeeds (within budget): it returns the success after
`j+1` factory calls, having slept `delayMs * i` after each failed attempt
`i`. -/
theorem retryFrom_succeeds (fn : Nat → Outcome α) (delayMs : Nat) (v : α) :
    ∀ (j r a : Nat) (last : Option String), j < r →
      (∀ i, i < j → ∃ e, fn (a + i) = Outcome.err e) →
      fn (a + j) = Outcome.ok v →
      retryFrom fn delayMs last a r
        = ⟨.ok v, j + 1, (List.range j).map fun i => delayMs * (a + i)⟩ := by
  intro j
  induction j with
  | zero =>
    intro r a last hr hf hs
    obtain ⟨r, rfl⟩ : ∃ s, r = s + 1 := ⟨r - 1, by omega⟩
    rw [Nat.add_zero] at hs
    simp [retryFrom, hs]
  | succ j ih =>
    intro r a last hr hf hs
    obtain ⟨r, rfl⟩ : ∃ s, r = s + 1 := ⟨r - 1, by omega⟩
    obtain ⟨e, he⟩ := hf 0 (Nat.succ_pos j)
    rw [Nat.add_zero] at he
    have hrec := ih r (a + 1) (some e) (by omega)
      (fun i hi => by
        obtain ⟨e2, he2⟩ := hf (i + 1) (by omega)
        exact ⟨e2, by rw [show a + 1 + i = a + (i + 1) by omega]; exact he2⟩)
      (by rw [show a + 1 + j = a + (j + 1) by omega]; exact hs)
    simp only [retryFrom, he, hrec]
    rw [waitsCons]

/-- Running the retry loop from attempt `a` with `r+1` attempts remaining,
all of which fail: it throws the error of the last attempt after `r+1`
factory calls, having slept after every failed attempt, the last one
included. -/
theorem retryFrom_step (fn : Nat → Outcome α) (delayMs : Nat)
    (last : Option String) (a r : Nat) (e : String)
    (he : fn a = Outcome.err e) :
    retryFrom fn delayMs last a (r + 1)
      = ⟨(retryFrom fn delayMs (some e) (a + 1) r).outcome,
         (retryFrom fn delayMs (some e) (a + 1) r).calls + 1,
         delayMs * a :: (retryFrom fn delayMs (some e) (a + 1) r).waits⟩ := by
  conv_lhs => rw [retryFrom]
  rw [he]

theorem retryFrom_all_fail (fn : Nat → Outcome α) (delayMs : Nat)
    (errf : Nat → String) :
    ∀ (r a : Nat) (last : Option String),
      (∀ i, i ≤ r → fn (a + i) = Outcome.err (errf (a + i))) →
      retryFrom fn delayMs last a (r + 1)
        = ⟨.error (some (errf (a + r))), r + 1,
           (List.range (r + 1)).map fun i => delayMs * (a + i)⟩ := by
  intro r
  induction r with
  | zero =>
    intro a last hf
    have he := hf 0 (le_refl 0)
    rw [Nat.add_zero] at he
    simp [retryFrom, he, List.range_succ]
  | succ r ih =>
    intro a last hf
    have he := hf 0 (Nat.zero_le _)
    rw [Nat.add_zero] at he
    have hrec := ih (a + 1) (some (errf a)) (fun i hi => by
      rw [show a + 1 + i = a + (i + 1) by omega]
      exact hf (i + 1) (by omega))
    rw [retryFrom_step fn delayMs last a (r + 1) (errf a) he, hrec,
      show a + 1 + r = a + (r + 1) by omega, waitsCons]

/-!
Claim theorems.
-/

/-- Claim C1 (counterexample): with maxAttempts = 1 and baseDelayMs = 200,
an always-failing operation does NOT incur zero backoff wait as the claim
states — the loop sleeps `delayMs * 1 = 200` ms after the single failed
attempt before throwing. -/
theorem retry_c1_counterexample :
    (retry (fun _ => (Outcome.err "boom" : Outcome Nat)) 1 200).totalWait
        = 200 ∧
    ¬ (retry (fun _ => (Outcome.err "boom" : Outcome Nat)) 1 200).totalWait
        = 0 := by
  constructor
  · rfl
  · decide

/-- Claim C1 (amended): for every policy with maxAttempts ≥ 1 and an
operation failing on every attempt, `retry` performs exactly maxAttempts
attempts, fails with the last attempt's error, and its total backoff wait
is `baseDelayMs * (1 + 2 + ... + maxAttempts)` — the loop sleeps after
every failed attempt, the final one included, so with maxAttempts = 1 a
wait of `baseDelayMs` is incurred before the failure propagates. -/
theorem retry_all_fail_spec (fn : Nat → Outcome α) (errf : Nat → String)
    (retries delayMs : Nat) (h1 : 1 ≤ retries)
    (hfail : ∀ i, 1 ≤ i → i ≤ retries → fn i = Outcome.err (errf i)) :
    (retry fn retries delayMs).outcome = .error (some (errf retries)) ∧
    (retry fn retries delayMs).calls = retries ∧
    (retry fn retries delayMs).totalWait
      = delayMs * (List.range (retries + 1)).sum := by
  obtain ⟨r, rfl⟩ : ∃ r, retries = r + 1 := ⟨retries - 1, by omega⟩
  have h := retryFrom_all_fail fn delayMs errf r 1 none
    (fun i hi => hfail (1 + i) (by omega) (by omega))
  rw [retry, h]
  refine ⟨by rw [show (1 : Nat) + r = r + 1 by omega], rfl, ?_⟩
  show ((List.range (r + 1)).map fun i => delayMs * (1 + i)).sum
    = delayMs * (List.range (r + 1 + 1)).sum
  exact sum_shifted_range delayMs (r + 1)

/-- Witness for `retry_all_fail_spec` at maxAttempts = 2, baseDelayMs = 100:
two attempts, the last error propagates, total wait 100 * (0+1+2) = 300. -/
theorem retry_all_fail_witness :
    (retry (fun _ => (Outcome.err "E" : Outcome Nat)) 2 100).outcome
        = .error (some "E") ∧
    (retry (fun _ => (Outcome.err "E" : Outcome Nat)) 2 100).calls = 2 ∧
    (retry (fun _ => (Outcome.err "E" : Outcome Nat)) 2 100).totalWait
        = 100 * (List.range 3).sum :=
  retry_all_fail_spec (fun _ => Outcome.err "E") (fun _ => "E") 2 100
    (by decide) (fun i h1 h2 => rfl)

/-- Claim C2: if the operation fails on attempts 1..k-1 and succeeds on
attempt k ≤ maxAttempts, `retry` invokes the factory exactly k times,
returns the successful result, and its backoff sleeps are exactly
`baseDelayMs * 1, ..., baseDelayMs * (k-1)` (one after each failed
attempt, none after the successful one). -/
theorem retry_success_spec (fn : Nat → Outcome α) (v : α)
    (retries delayMs k : Nat) (hk1 : 1 ≤ k) (hk : k ≤ retries)
    (hfail : ∀ i, 1 ≤ i → i < k → ∃ e, fn i = Outcome.err e)
    (hsucc : fn k = Outcome.ok v) :
    (retry fn retries delayMs).outcome = .ok v ∧
    (retry fn retries delayMs).calls = k ∧
    (retry fn retries delayMs).waits
      = (List.range (k - 1)).map fun i => delayMs * (1 + i) := by
  have h := retryFrom_succeeds fn delayMs v (k - 1) retries 1 none
    (by omega)
    (fun i hi => hfail (1 + i) (by omega) (by omega))
    (by rw [show 1 + (k - 1) = k by omega]; exact hsucc)
  rw [retry, h]
  exact ⟨rfl, by show k - 1 + 1 = k; omega, rfl⟩

/-- Witness for `retry_success_spec`: with a factory failing on attempts 1
and 2 and succeeding on attempt 3 (budget 5, baseDelayMs 10), the factory
runs 3 times, the result is 42 and the sleeps are 10 and 20. -/
theorem retry_success_witness :
    (retry (fun a => if a < 3 then (Outcome.err "E" : Outcome Nat)
        else .ok 42) 5 10).outcome = .ok 42 ∧
    (retry (fun a => if a < 3 then (Outcome.err "E" : Outcome Nat)
        else .ok 42) 5 10).calls = 3 ∧
    (retry (fun a => if a < 3 then (Outcome.err "E" : Outcome Nat)
        else .ok 42) 5 10).waits
      = (List.range 2).map fun i => 10 * (1 + i) :=
  retry_success_spec
    (fun a => if a < 3 then (Outcome.err "E" : Outcome Nat) else .ok 42)
    42 5 10 3 (by decide) (by decide)
    (fun i h1 h2 => ⟨"E", by simp [h2]⟩) (by decide)

/-- Claim C10: invoked with a retry count below 1, `retry` never invokes
the factory, incurs no wait, and throws the still-undefined `lastError`
(modelled as error payload `none`, i.e. not an Error object). -/
theorem retry_below_one_spec (fn : Nat → Outcome α) (retries delayMs : Nat)
    (h : retries < 1) :
    (retry fn retries delayMs).outcome = .error none ∧
    (retry fn retries delayMs).calls = 0 ∧
    (retry fn retries delayMs).waits = [] := by
  obtain rfl : retries = 0 := by omega
  exact ⟨rfl, rfl, rfl⟩

/-- Witness for `retry_below_one_spec` at retries = 0. -/
theorem retry_below_one_witness :
    (retry (fun _ => (Outcome.ok 5 : Outcome Nat)) 0 99).outcome
        = .error none ∧
    (retry (fun _ => (Outcome.ok 5 : Outcome Nat)) 0 99).calls = 0 ∧
    (retry (fun _ => (Outcome.ok 5 : Outcome Nat)) 0 99).waits = [] :=
  retry_below_one_spec (fun _ => Outcome.ok 5) 0 99 (by decide)

/-- Claim C3: `withTimeout` settles with whichever side completes first:
when the operation's delay exceeds `ms` it fails at `ms` with message
`timeout after <ms>ms`, and when its delay is below `ms` it settles with
the operation's own outcome (value or error alike). -/
theorem withTimeout_spec (p : Timed (Outcome α)) (ms : Nat) :
    (ms < p.delay → withTimeout p ms
        = ⟨ms, .err ("timeout after " ++ toString ms ++ "ms")⟩) ∧
    (p.delay < ms → withTimeout p ms = p) := by
  constructor
  · intro h
    rw [withTimeout, if_neg (by omega)]
  · intro h
    rw [withTimeout, if_pos (by omega)]

/-- Witness for `withTimeout_spec`: a 500 ms operation against a 250 ms
budget times out; a 100 ms operation against the same budget passes its
own outcome through. -/
theorem withTimeout_spec_witness :
    withTimeout (⟨500, Outcome.ok 7⟩ : Timed (Outcome Nat)) 250
        = ⟨250, .err ("timeout after " ++ toString 250 ++ "ms")⟩ ∧
    withTimeout (⟨100, Outcome.err "own failure"⟩ : Timed (Outcome Nat)) 250
        = ⟨100, .err "own failure"⟩ :=
  ⟨(withTimeout_spec ⟨500, Outcome.ok 7⟩ 250).1 (by decide),
   (withTimeout_spec ⟨100, Outcome.err "own failure"⟩ 250).2 (by decide)⟩

/-- Claim C5: a simulated operation with failure probability 0 always
succeeds, with `durationMs` the requested duration and `name` the given
name; with failure probability 1 it always fails with message
`[<name>] failed (simulated)`, which contains the name; and in general it
fails exactly when the draw is below the failure probability. -/
theorem fakeIo_spec (name : String) (ms : Nat) (draw : ℚ)
    (h0 : 0 ≤ draw) (h1 : draw < 1) :
    (fakeIo name ms 0 draw).val = .ok ⟨name, ms, ms⟩ ∧
    (fakeIo name ms 1 draw).val
        = .err ("[" ++ name ++ "] failed (simulated)") ∧
    (∃ pre post,
        "[" ++ name ++ "] failed (simulated)" = pre ++ name ++ post) ∧
    ∀ p : ℚ, ((fakeIo name ms p draw).val).isErr = decide (draw < p) := by
  refine ⟨fakeIo_zero_rate name ms draw h0, ?_, ⟨"[", "] failed (simulated)", rfl⟩, ?_⟩
  · rw [fakeIo]
    simp only [if_pos h1]
  · intro p
    rw [fakeIo]
    by_cases hp : draw < p
    · simp [hp, Outcome.isErr]
    · simp [hp, Outcome.isErr]

/-- Witness for `fakeIo_spec` at name "op", duration 5, draw 1/2. -/
theorem fakeIo_spec_witness :
    (fakeIo "op" 5 0 (1/2)).val = .ok ⟨"op", 5, 5⟩ ∧
    (fakeIo "op" 5 1 (1/2)).val = .err ("[" ++ "op" ++ "] failed (simulated)") ∧
    (∃ pre post,
        "[" ++ "op" ++ "] failed (simulated)" = pre ++ "op" ++ post) ∧
    ∀ p : ℚ, ((fakeIo "op" 5 p (1/2)).val).isErr = decide ((1:ℚ)/2 < p) :=
  fakeIo_spec "op" 5 (1/2) (by norm_num) (by norm_num)

/-- The delay of a simulated operation is its requested duration. -/
theorem fakeIo_delay (n : String) (m : Nat) (p d : ℚ) :
    (fakeIo n m p d).delay = m := rfl

/-- Claim C4: `allSettled` yields one settled outcome per submitted
operation, of the same length and in input order, each entry fulfilled
exactly when the operation succeeded and rejected exactly when it failed;
the settle-all scenario (`demoAllSettled`) yields its three entries this
way for every triple of draws. -/
theorem allSettled_spec (l : List (Outcome α)) :
    (allSettled l).length = l.length ∧
    (∀ i : Nat, ((allSettled l)[i]?).map Settled.isFulfilled
        = (l[i]?).map Outcome.isOk) ∧
    (∀ i : Nat, ((allSettled l)[i]?).map Settled.isRejected
        = (l[i]?).map Outcome.isErr) ∧
    ∀ d1 d2 d3 : ℚ, (demoAllSettled d1 d2 d3).length = 3 := by
  refine ⟨by simp [allSettled], ?_, ?_, fun d1 d2 d3 => rfl⟩
  · intro i
    rw [allSettled, List.getElem?_map]
    cases l[i]? with
    | none => rfl
    | some o => cases o <;> rfl
  · intro i
    rw [allSettled, List.getElem?_map]
    cases l[i]? with
    | none => rfl
    | some o => cases o <;> rfl

/-- Claim C6: in the chain scenario, two successful steps produce
"final result from promise chain"; a failure of either step is caught and
replaced by "chain recovered with fallback"; the chain's own promise never
rejects and the finally step always runs.  On nonnegative draws both
concrete steps succeed, so `demoPromiseChain` returns the final value. -/
theorem chain_spec (s1 s2 : Outcome Result) :
    ((∃ r, s1 = Outcome.ok r) → (∃ r, s2 = Outcome.ok r) →
        (chainSteps s1 s2).value = .ok "final result from promise chain") ∧
    (((∃ e, s1 = Outcome.err e) ∨ (∃ e, s2 = Outcome.err e)) →
        (chainSteps s1 s2).value = .ok "chain recovered with fallback") ∧
    ((chainSteps s1 s2).value).isErr = false ∧
    (chainSteps s1 s2).finallyRan = true ∧
    ∀ d1 d2 : ℚ, 0 ≤ d1 → 0 ≤ d2 →
      (demoPromiseChain d1 d2).value
        = .ok "final result from promise chain" := by
  refine ⟨?_, ?_, ?_, rfl, ?_⟩
  · rintro ⟨r1, rfl⟩ ⟨r2, rfl⟩
    rfl
  · rintro (⟨e, rfl⟩ | ⟨e, rfl⟩)
    · rfl
    · cases s1 <;> rfl
  · cases s1 <;> cases s2 <;> rfl
  · intro d1 d2 h1 h2
    rw [demoPromiseChain, fakeIo_zero_rate _ _ _ h1,
      fakeIo_zero_rate _ _ _ h2]
    rfl

/-- Witness for `chain_spec`: both steps succeeding yields the final
value; a failing first step yields the fallback; concrete draws 1/2. -/
theorem chain_spec_witness :
    (chainSteps (Outcome.ok ⟨"a", 1, 1⟩) (Outcome.ok ⟨"b", 2, 2⟩)).value
        = .ok "final result from promise chain" ∧
    (chainSteps (Outcome.err "x") (Outcome.ok ⟨"b", 2, 2⟩)).value
        = .ok "chain recovered with fallback" ∧
    (demoPromiseChain (1/2) (1/2)).value
        = .ok "final result from promise chain" :=
  ⟨(chain_spec (Outcome.ok ⟨"a", 1, 1⟩) (Outcome.ok ⟨"b", 2, 2⟩)).1
      ⟨_, rfl⟩ ⟨_, rfl⟩,
   (chain_spec (Outcome.err "x") (Outcome.ok ⟨"b", 2, 2⟩)).2.1
      (Or.inl ⟨_, rfl⟩),
   (chain_spec (Outcome.ok ⟨"a", 1, 1⟩) (Outcome.ok ⟨"b", 2, 2⟩)).2.2.2.2
      (1/2) (1/2) (by norm_num) (by norm_num)⟩

/-- Claim C8: racing two zero-failure-rate operations with differing
delays yields the one with the shorter delay; in the concrete scenario,
slow (400 ms) against fast (120 ms), the winner logged is "fast". -/
theorem race_spec (n1 n2 : String) (m1 m2 : Nat) (d1 d2 : ℚ)
    (hne : m1 ≠ m2) :
    race2 (fakeIo n1 m1 0 d1) (fakeIo n2 m2 0 d2)
      = (if m1 < m2 then fakeIo n1 m1 0 d1 else fakeIo n2 m2 0 d2) ∧
    ∀ ds df : ℚ, 0 ≤ df → demoRace ds df = .ok "fast" := by
  constructor
  · rw [race2, fakeIo_delay, fakeIo_delay]
    by_cases h : m1 < m2
    · rw [if_neg (by omega), if_pos h]
    · rw [if_pos (by omega), if_neg h]
  · intro ds df hdf
    have hd : (fakeIo "fast" 120 0 df).delay
        < (fakeIo "slow" 400 0 ds).delay := by
      rw [fakeIo_delay, fakeIo_delay]
      omega
    have hw : (race2 (fakeIo "slow" 400 0 ds) (fakeIo "fast" 120 0 df)).val
        = Outcome.ok ⟨"fast", 120, 120⟩ := by
      rw [race2, if_pos hd]
      exact fakeIo_zero_rate "fast" 120 df hdf
    rw [demoRace, hw]

/-- Witness for `race_spec` at delays 100 and 300 and draws 0. -/
theorem race_spec_witness :
    race2 (fakeIo "a" 100 0 0) (fakeIo "b" 300 0 0)
      = (if 100 < 300 then fakeIo "a" 100 0 0 else fakeIo "b" 300 0 0) ∧
    demoRace 0 0 = .ok "fast" := by
  have h := race_spec "a" "b" 100 300 0 0 (by decide)
  exact ⟨h.1, h.2 0 0 (by norm_num)⟩

/-- Claim C9: every function defined in both source files — sleep, fakeIO,
withTimeout, and the chain, async-await, parallel-all, settle-all, race
and timeout scenarios — is extensionally equal between src/index.js and
src/unnamed/part_000: on the same inputs and random draws the two
definitions produce the same outcome. -/
theorem duplicate_file_equivalence :
    Dup.sleep = sleep ∧ Dup.fakeIo = fakeIo ∧
    (@Dup.withTimeout) = (@withTimeout) ∧
    Dup.demoPromiseChain = demoPromiseChain ∧
    Dup.demoAsyncAwait = demoAsyncAwait ∧
    Dup.demoParallelAll = demoParallelAll ∧
    Dup.demoAllSettled = demoAllSettled ∧
    Dup.demoRace = demoRace ∧
    Dup.demoTimeout = demoTimeout :=
  ⟨rfl, rfl, rfl, rfl, rfl, rfl, rfl, rfl, rfl⟩

/-- Claim C7: for every stream of random draws (each in [0, 1), only
nonnegativity is needed), `main` runs all eight scenarios exactly once, in
the fixed order chain, async-await, parallel-all, settle-all, race,
timeout, retry, pipeline, and finishes with its promise fulfilled: no
scenario's internal failure escapes to abort the run. -/
theorem main_spec (rand : Nat → ℚ) (h : ∀ i, 0 ≤ rand i) :
    mainRun rand
      = (["chain", "async-await", "parallel-all", "settle-all", "race",
          "timeout", "retry", "pipeline"], .ok ()) := by
  have hchain : (demoPromiseChain (rand 0) (rand 1)).value
      = Outcome.ok "final result from promise chain" := by
    rw [demoPromiseChain, fakeIo_zero_rate _ _ _ (h 0),
      fakeIo_zero_rate _ _ _ (h 1)]
    rfl
  have hawait : demoAsyncAwait (rand 2) (rand 3)
      = Outcome.ok "final result from async/await" := by
    rw [demoAsyncAwait, fakeIo_zero_rate _ _ _ (h 2),
      fakeIo_zero_rate _ _ _ (h 3)]
  have hpar : demoParallelAll (rand 4) (rand 5) (rand 6)
      = Outcome.ok ["A", "B", "C"] := by
    rw [demoParallelAll, fakeIo_zero_rate _ _ _ (h 4),
      fakeIo_zero_rate _ _ _ (h 5), fakeIo_zero_rate _ _ _ (h 6)]
    rfl
  have hd : (fakeIo "fast" 120 0 (rand 11)).delay
      < (fakeIo "slow" 400 0 (rand 10)).delay := by
    rw [fakeIo_delay, fakeIo_delay]
    omega
  have hracev : demoRace (rand 10) (rand 11) = Outcome.ok "fast" := by
    have hw : (race2 (fakeIo "slow" 400 0 (rand 10))
        (fakeIo "fast" 120 0 (rand 11))).val
        = Outcome.ok ⟨"fast", 120, 120⟩ := by
      rw [race2, if_pos hd]
      exact fakeIo_zero_rate "fast" 120 (rand 11) (h 11)
    rw [demoRace, hw]
  have hretry : demoRetry (fun a => rand (12 + a)) = Outcome.ok () := by
    unfold demoRetry
    split <;> rfl
  have hpipe : demoPipeline (rand 17) (rand 18) (rand 19) (rand 20)
      = Outcome.ok (⟨"fetch-data", 200, 200⟩,
          (⟨"process-part-1", 250, 250⟩, ⟨"process-part-2", 300, 300⟩),
          ⟨"save", 150, 150⟩) := by
    rw [demoPipeline, fakeIo_zero_rate _ _ _ (h 17),
      fakeIo_zero_rate _ _ _ (h 18), fakeIo_zero_rate _ _ _ (h 19),
      fakeIo_zero_rate _ _ _ (h 20)]
  rw [mainRun, mainScenarios, hchain, hawait, hpar, hracev, hretry, hpipe]
  rfl

/-- Witness for `main_spec` with every draw 1/2. -/
theorem main_spec_witness :
    mainRun (fun _ => 1/2)
      = (["chain", "async-await", "parallel-all", "settle-all", "race",
          "timeout", "retry", "pipeline"], .ok ()) :=
  main_spec (fun _ => 1/2) (fun i => by norm_num)
